import Mathlib

/-!
Shallow embedding of the X402 payment-challenge / payment-verification core
of the AxiomKit showcase repository.

Source of truth:
  * `src/app/api/weather/route.ts` — `generatePaymentChallenge`,
    `verifyPayment`, `GET`, and the module-level `verifiedPayments` map.
  * `src/lib/axiom-config.ts` — the static `X402_CONFIG` bundle.

Modelling conventions:
  * JavaScript objects whose fields may be absent (JSON-decoded data,
    result objects) are embedded with `Option` fields: `none` is an absent
    field / `undefined`.
  * The base64+JSON decoding of the `X-Payment` header (`Buffer.from` +
    `JSON.parse`) is external machinery; its outcome is embedded as
    `DecodeOutcome`: either a decoded `PaymentData` value or a thrown
    exception carrying a message (which the `try`/`catch` in
    `verifyPayment` turns into a `"Verification error: " ++ msg` result).
  * The viem ledger client `publicClient.getTransactionReceipt` is an
    oracle `String → RpcOutcome`: a receipt, a falsy/absent receipt, or a
    thrown fault with a message.
  * `Date.now()` and the `Math.random()`-derived suffix are explicit
    parameters (`now : Nat`, `rand : String`): one call of the JS function
    corresponds to one choice of these parameters.
  * The `verifiedPayments` `Map` is an association list threaded through
    `verifyPayment` and `GET` as explicit state; `Map.has` is `lookup`,
    `Map.set` is cons (the key is never already present when set runs).
-/

/-- `src/lib/axiom-config.ts`: the static configuration bundle shape. -/
structure X402Config where
  network : String
  chainId : Nat
  asset : String
  assetAddress : String
  assetDecimals : Nat
  recipient : String
  rpcUrl : String
deriving Repr, DecidableEq

/-- `src/lib/axiom-config.ts` lines 35–43: the Sei-testnet configuration. -/
def X402_CONFIG : X402Config :=
  { network := "sei-testnet"
  , chainId := 1328
  , asset := "USDC"
  , assetAddress := "0x4fCF1784B31630811181f670Aea7A7bEF803eaED"
  , assetDecimals := 6
  , recipient := "0x9dC2aA0038830c052253161B1EE49B9dD449bD66"
  , rpcUrl := "https://evm-rpc-testnet.sei-apis.com" }

/-- Numeric value of a decimal digit character. -/
def charVal (c : Char) : Nat := c.toNat - '0'.toNat

/-- Value of a big-endian list of decimal digit characters. -/
def parseDigits (l : List Char) : Nat :=
  l.foldl (fun a c => 10 * a + charVal c) 0

/-- viem `parseUnits(value, decimals)` on a non-negative decimal string:
multiplies by `10 ^ decimals`, reading an optional fractional part padded
or truncated to `decimals` digits. (The source only applies it to
`"0.001"` with 6 decimals.) -/
def parseUnits (value : String) (decimals : Nat) : Nat :=
  let intPart := value.data.takeWhile (fun c => c ≠ '.')
  let fracPart := (value.data.dropWhile (fun c => c ≠ '.')).drop 1
  let frac := (fracPart ++ List.replicate decimals '0').take decimals
  parseDigits intPart * 10 ^ decimals + parseDigits frac

/-- Model of JS `String.prototype.toLowerCase` on the ASCII strings the
route compares (hex addresses): lower-case each character. -/
def toLowerStr (s : String) : String := String.mk (s.data.map Char.toLower)

/-- The `extra` object of a payment option (route.ts lines 56–60). -/
structure ExtraInfo where
  name : String
  version : String
  reference : String
deriving Repr, DecidableEq

/-- One entry of `accepts` in a 402 challenge (route.ts lines 46–61). -/
structure PaymentOption where
  scheme : String
  network : String
  maxAmountRequired : String
  resource : String
  description : String
  mimeType : String
  payTo : String
  maxTimeoutSeconds : Nat
  asset : String
  extra : ExtraInfo
deriving Repr, DecidableEq

/-- The 402 challenge body (route.ts lines 43–63); `error` is attached by
`GET` on the re-issue path (route.ts lines 146–148). -/
structure PaymentChallenge where
  x402Version : Nat
  accepts : List PaymentOption
  error : Option String := none
deriving Repr, DecidableEq

/-- The reference string of route.ts lines 38–40:
`` `sei-${Date.now()}-${Math.random().toString(36).substring(7)}` ``.
`now` is the millisecond clock reading, `rand` the random base-36 suffix. -/
def mkReference (now : Nat) (rand : String) : String :=
  "sei-" ++ Nat.repr now ++ "-" ++ rand

/-- route.ts lines 37–64: `generatePaymentChallenge()`, with the two
nondeterministic reads (`Date.now()`, the `Math.random()` suffix) made
explicit parameters. -/
def generatePaymentChallenge (cfg : X402Config) (now : Nat) (rand : String) :
    PaymentChallenge :=
  let reference := mkReference now rand
  let amountInUnits := parseUnits "0.001" cfg.assetDecimals
  { x402Version := 1
  , accepts :=
    [ { scheme := "exact"
      , network := cfg.network
      , maxAmountRequired := Nat.repr amountInUnits
      , resource := "/api/weather"
      , description := "Get current weather data"
      , mimeType := "application/json"
      , payTo := cfg.recipient
      , maxTimeoutSeconds := 300
      , asset := cfg.assetAddress
      , extra := { name := cfg.asset, version := "2", reference := reference } } ]
  , error := none }

/-- The `payload` object of a decoded `X-Payment` proof; every field may be
absent in the JSON (route.ts reads `payload.txHash`, `payload.amount`,
`payload.from`). -/
structure PaymentPayload where
  txHash : Option String
  amount : Option String
  fromAddr : Option String
deriving Repr, DecidableEq

/-- A decoded `X-Payment` proof (route.ts line 77 destructures
`x402Version`, `scheme`, `network`, `payload`); each field may be absent. -/
structure PaymentData where
  x402Version : Option Nat
  scheme : Option String
  network : Option String
  payload : Option PaymentPayload
deriving Repr, DecidableEq

/-- Outcome of `JSON.parse(Buffer.from(paymentHeader, "base64").toString())`
(route.ts lines 72–74): a decoded object, or a thrown exception with a
message (caught at lines 123–129). -/
inductive DecodeOutcome where
  | ok (d : PaymentData)
  | err (msg : String)
deriving Repr, DecidableEq

/-- A transaction receipt as consumed by route.ts lines 96–106: `status`
and the (possibly absent) direct destination `to` (named `toAddr` here,
`to` being reserved). -/
structure Receipt where
  status : String
  toAddr : Option String
deriving Repr, DecidableEq

/-- Outcome of `publicClient.getTransactionReceipt` (route.ts lines 96–98):
a receipt, an absent/falsy receipt (the `!receipt` branch of line 100), or
a thrown RPC fault with a message (caught at lines 123–129). -/
inductive RpcOutcome where
  | ok (r : Option Receipt)
  | fault (msg : String)
deriving Repr, DecidableEq

/-- An entry of the `verifiedPayments` map (route.ts lines 110–114). -/
structure CacheEntry where
  timestamp : Nat
  amount : Option String
  fromAddr : Option String
deriving Repr, DecidableEq

/-- The module-level `verifiedPayments` map (route.ts line 32), embedded as
an association list keyed by transaction hash. -/
def Cache : Type := List (String × CacheEntry)

/-- The result object of `verifyPayment` (route.ts lines 85–128): JS object
fields that are set only on some paths are `Option`s. -/
structure VerificationResult where
  isValid : Bool
  reason : Option String := none
  cached : Option Bool := none
  txHash : Option String := none
deriving Repr, DecidableEq

/-- route.ts lines 69–130: `verifyPayment`, state-passing the
`verifiedPayments` map. `decode` is the outcome of the header decode,
`rpc` the ledger-receipt oracle, `now` the `Date.now()` reading used for
the cache timestamp. JS truthiness of `payload.txHash` (line 89) makes an
absent or empty hash fall through to the "No valid payment proof provided"
exit; an absent `payload` makes line 89 throw a `TypeError`, which the
`catch` maps to a `"Verification error: ..."` result. -/
def verifyPayment (cfg : X402Config) (decode : DecodeOutcome)
    (rpc : String → RpcOutcome) (now : Nat) (cache : Cache) :
    VerificationResult × Cache :=
  match decode with
  | .err m =>
      ({ isValid := false, reason := some ("Verification error: " ++ m) }, cache)
  | .ok d =>
      if d.x402Version ≠ some 1 ∨ d.scheme ≠ some "exact"
          ∨ d.network ≠ some cfg.network then
        ({ isValid := false, reason := some "Invalid payment format or network" },
         cache)
      else
        match d.payload with
        | none =>
            ({ isValid := false
             , reason := some ("Verification error: "
                 ++ "Cannot read properties of undefined (reading 'txHash')") },
             cache)
        | some p =>
            match p.txHash with
            | none =>
                ({ isValid := false
                 , reason := some "No valid payment proof provided" }, cache)
            | some tx =>
                if tx = "" then
                  ({ isValid := false
                   , reason := some "No valid payment proof provided" }, cache)
                else if (cache.lookup tx).isSome then
                  ({ isValid := true, cached := some true }, cache)
                else
                  match rpc tx with
                  | .fault m =>
                      ({ isValid := false
                       , reason := some ("Verification error: " ++ m) }, cache)
                  | .ok none =>
                      ({ isValid := false
                       , reason := some "Transaction failed or not found" },
                       cache)
                  | .ok (some r) =>
                      if r.status ≠ "success" then
                        ({ isValid := false
                         , reason := some "Transaction failed or not found" },
                         cache)
                      else if r.toAddr.map toLowerStr
                          = some (toLowerStr cfg.assetAddress) then
                        ({ isValid := true, txHash := some tx },
                         (tx, { timestamp := now, amount := p.amount
                              , fromAddr := p.fromAddr }) :: cache)
                      else
                        ({ isValid := false
                         , reason := some "Invalid transfer details" }, cache)

/-- Response body of the `GET` handler: a (possibly error-annotated)
challenge, or the weather payload with the verification echoed. -/
inductive HttpBody where
  | challenge (c : PaymentChallenge)
  | weather (payment : VerificationResult)
deriving Repr, DecidableEq

/-- An HTTP response of the `GET` handler. -/
structure HttpResponse where
  status : Nat
  body : HttpBody
deriving Repr, DecidableEq

/-- route.ts lines 144–148: `verification.reason || "Payment verification
failed"` (JS `||`: an absent or empty reason falls back to the default). -/
def reasonOrDefault (reason : Option String) : String :=
  match reason with
  | some s => if s = "" then "Payment verification failed" else s
  | none => "Payment verification failed"

/-- route.ts lines 132–164: the `GET` handler. `hdr` is
`req.headers.get("x-payment")` (`none` when the header is absent; an empty
header value is falsy at line 136 and also yields the bare challenge).
`decode` maps a header value to its decode outcome, `rpc` is the ledger
oracle, `now`/`rand` the clock and random readings of this request. -/
def GET (cfg : X402Config) (decode : String → DecodeOutcome)
    (rpc : String → RpcOutcome) (now : Nat) (rand : String)
    (hdr : Option String) (cache : Cache) : HttpResponse × Cache :=
  match hdr with
  | none =>
      ({ status := 402
       , body := .challenge (generatePaymentChallenge cfg now rand) }, cache)
  | some h =>
      if h = "" then
        ({ status := 402
         , body := .challenge (generatePaymentChallenge cfg now rand) }, cache)
      else
        let res := verifyPayment cfg (decode h) rpc now cache
        if res.1.isValid = false then
          let c := generatePaymentChallenge cfg now rand
          ({ status := 402
           , body := .challenge { c with error := some (reasonOrDefault res.1.reason) } },
           res.2)
        else
          ({ status := 200, body := .weather res.1 }, res.2)

/-! ## Claim theorems -/

/-- Claim C1 (amended): once a `transactionId` is a key of the
verified-payment cache, a subsequent `verifyPayment` call with a
well-formed proof carrying that id returns `isValid = true`,
`cached = true`, leaves the cache unchanged, and performs no ledger query
(the `rpc` oracle is universally quantified and absent from the result) —
but, contrary to the claim as stated, the cached result does NOT echo the
transaction id: its `txHash` field is absent. -/
theorem C1_idempotent_cached (cfg : X402Config) (d : PaymentData)
    (p : PaymentPayload) (tx : String) (rpc : String → RpcOutcome)
    (now : Nat) (cache : Cache)
    (hv : d.x402Version = some 1) (hs : d.scheme = some "exact")
    (hn : d.network = some cfg.network) (hp : d.payload = some p)
    (ht : p.txHash = some tx) (hne : tx ≠ "")
    (hc : (cache.lookup tx).isSome) :
    verifyPayment cfg (.ok d) rpc now cache
      = ({ isValid := true, reason := none, cached := some true, txHash := none },
         cache) := by
  simp [verifyPayment, hv, hs, hn, hp, ht, hne, hc]

/-- Witness for C1: a concrete cached transaction, with a ledger oracle
that would fault if it were ever consulted. -/
theorem C1_idempotent_cached_witness :
    verifyPayment X402_CONFIG
        (.ok { x402Version := some 1, scheme := some "exact"
             , network := some "sei-testnet"
             , payload := some { txHash := some "0xabc", amount := some "1000"
                               , fromAddr := some "0xme" } })
        (fun _ => .fault "rpc down") 7
        [("0xabc", { timestamp := 1, amount := some "1000", fromAddr := some "0xme" })]
      = ({ isValid := true, reason := none, cached := some true, txHash := none },
         [("0xabc", { timestamp := 1, amount := some "1000", fromAddr := some "0xme" })]) :=
  C1_idempotent_cached X402_CONFIG _ _ "0xabc" _ 7 _
    rfl rfl rfl rfl rfl (by decide) (by decide)

/-- Counterexample to C1 as stated: on a cache hit the code returns
`{ isValid: true, cached: true }` with NO `txHash` field (route.ts line
92), so the transaction id is not echoed. -/
theorem C1_counterexample :
    ((verifyPayment X402_CONFIG
        (.ok { x402Version := some 1, scheme := some "exact"
             , network := some "sei-testnet"
             , payload := some { txHash := some "0xabc", amount := some "1000"
                               , fromAddr := some "0xme" } })
        (fun _ => .fault "rpc down") 7
        [("0xabc", { timestamp := 1, amount := some "1000", fromAddr := some "0xme" })]).1.isValid
      = true) ∧
    ((verifyPayment X402_CONFIG
        (.ok { x402Version := some 1, scheme := some "exact"
             , network := some "sei-testnet"
             , payload := some { txHash := some "0xabc", amount := some "1000"
                               , fromAddr := some "0xme" } })
        (fun _ => .fault "rpc down") 7
        [("0xabc", { timestamp := 1, amount := some "1000", fromAddr := some "0xme" })]).1.cached
      = some true) ∧
    ((verifyPayment X402_CONFIG
        (.ok { x402Version := some 1, scheme := some "exact"
             , network := some "sei-testnet"
             , payload := some { txHash := some "0xabc", amount := some "1000"
                               , fromAddr := some "0xme" } })
        (fun _ => .fault "rpc down") 7
        [("0xabc", { timestamp := 1, amount := some "1000", fromAddr := some "0xme" })]).1.txHash
      ≠ some "0xabc") := by
  refine ⟨by decide, by decide, by decide⟩

/-- Claim C2 (amended): any decoded proof failing the
version/scheme/network gate is rejected with reason
`"Invalid payment format or network"` (capital I — the claim quoted the
string in lower case), the cache is returned unchanged, and neither the
cache contents nor the ledger oracle influence the result (both are
universally quantified and absent from the result value). -/
theorem C2_version_scheme_network_gate (cfg : X402Config) (d : PaymentData)
    (rpc : String → RpcOutcome) (now : Nat) (cache : Cache)
    (h : d.x402Version ≠ some 1 ∨ d.scheme ≠ some "exact"
         ∨ d.network ≠ some cfg.network) :
    verifyPayment cfg (.ok d) rpc now cache
      = ({ isValid := false, reason := some "Invalid payment format or network" },
         cache) := by
  simp only [verifyPayment]
  rw [if_pos h]

/-- Witness for C2: a concrete proof with `x402Version = 2`. -/
theorem C2_version_scheme_network_gate_witness :
    verifyPayment X402_CONFIG
        (.ok { x402Version := some 2, scheme := some "exact"
             , network := some "sei-testnet"
             , payload := some { txHash := some "0xabc", amount := some "1000"
                               , fromAddr := some "0xme" } })
        (fun _ => .ok none) 7 []
      = ({ isValid := false, reason := some "Invalid payment format or network" },
         []) :=
  C2_version_scheme_network_gate X402_CONFIG _ _ 7 [] (by left; decide)

/-- Counterexample to C2 as stated: the reason string produced by the code
is `"Invalid payment format or network"` (route.ts line 85), not the
claimed `"invalid payment format or network"`. -/
theorem C2_counterexample :
    ((verifyPayment X402_CONFIG
        (.ok { x402Version := some 2, scheme := some "exact"
             , network := some "sei-testnet"
             , payload := some { txHash := some "0xabc", amount := some "1000"
                               , fromAddr := some "0xme" } })
        (fun _ => .ok none) 7 []).1.reason
      ≠ some "invalid payment format or network") ∧
    ((verifyPayment X402_CONFIG
        (.ok { x402Version := some 2, scheme := some "exact"
             , network := some "sei-testnet"
             , payload := some { txHash := some "0xabc", amount := some "1000"
                               , fromAddr := some "0xme" } })
        (fun _ => .ok none) 7 []).1.reason
      = some "Invalid payment format or network") := by
  refine ⟨by decide, by decide⟩

/-- Claim C4 (amended): when the base64/JSON decode of the header throws
with message `m`, `verifyPayment` returns `isValid = false` with reason
`"Verification error: " ++ m` (route.ts lines 123–129) — the code has no
`"malformed proof"` reason. The cache is unchanged and the ledger oracle
is never consulted. -/
theorem C4_decode_failure (cfg : X402Config) (m : String)
    (rpc : String → RpcOutcome) (now : Nat) (cache : Cache) :
    verifyPayment cfg (.err m) rpc now cache
      = ({ isValid := false, reason := some ("Verification error: " ++ m) },
         cache) := rfl

/-- Counterexample to C4 as stated: a malformed header (JSON parse throws)
yields reason `"Verification error: <parser message>"`, never the claimed
`"malformed proof"`. -/
theorem C4_counterexample :
    ((verifyPayment X402_CONFIG (.err "Unexpected token u in JSON at position 0")
        (fun _ => .ok none) 7 []).1.reason ≠ some "malformed proof") ∧
    ((verifyPayment X402_CONFIG (.err "Unexpected token u in JSON at position 0")
        (fun _ => .ok none) 7 []).1.reason
      = some "Verification error: Unexpected token u in JSON at position 0") := by
  refine ⟨by decide, by decide⟩

/-- Claim C6 (confirmed): a `GET` request with no `X-Payment` header always
yields status 402 with a freshly generated challenge as body and never a
200; the cache is untouched. -/
theorem C6_fail_closed (cfg : X402Config) (decode : String → DecodeOutcome)
    (rpc : String → RpcOutcome) (now : Nat) (rand : String) (cache : Cache) :
    GET cfg decode rpc now rand none cache
      = ({ status := 402
         , body := .challenge (generatePaymentChallenge cfg now rand) }, cache)
    ∧ (GET cfg decode rpc now rand none cache).1.status ≠ 200 :=
  ⟨rfl, fun h => (by decide : (402 : Nat) ≠ 200) h⟩

/-- Claim C7 (confirmed): every challenge issued from the static
configuration has `x402Version = 1` and exactly one accepted option, with
scheme `"exact"`, `maxAmountRequired = "1000"` (`parseUnits "0.001" 6`),
`payTo` the configured recipient, `maxTimeoutSeconds = 300`, and `asset`
the configured asset address. -/
theorem C7_challenge_contents (now : Nat) (rand : String) :
    (generatePaymentChallenge X402_CONFIG now rand).x402Version = 1 ∧
    (generatePaymentChallenge X402_CONFIG now rand).accepts
      = [{ scheme := "exact"
         , network := X402_CONFIG.network
         , maxAmountRequired := "1000"
         , resource := "/api/weather"
         , description := "Get current weather data"
         , mimeType := "application/json"
         , payTo := X402_CONFIG.recipient
         , maxTimeoutSeconds := 300
         , asset := X402_CONFIG.assetAddress
         , extra := { name := X402_CONFIG.asset, version := "2"
                    , reference := mkReference now rand } }] := by
  refine ⟨rfl, ?_⟩
  have h : Nat.repr (parseUnits "0.001" X402_CONFIG.assetDecimals) = "1000" := by
    decide
  simp only [generatePaymentChallenge, h]

/-- Claim C3 (amended): for a well-formed, uncached proof whose receipt
exists with status `"success"`: a destination not case-insensitively equal
to the configured asset address is rejected with reason
`"Invalid transfer details"` (capital I — the claim quoted the string in
lower case) leaving the cache unchanged; a matching destination yields
`isValid = true` with the transaction id echoed and a cache entry
(timestamp, amount, payer) keyed by that id. -/
theorem C3_destination_check (cfg : X402Config) (d : PaymentData)
    (p : PaymentPayload) (tx : String) (r : Receipt)
    (rpc : String → RpcOutcome) (now : Nat) (cache : Cache)
    (hv : d.x402Version = some 1) (hs : d.scheme = some "exact")
    (hn : d.network = some cfg.network) (hp : d.payload = some p)
    (ht : p.txHash = some tx) (hne : tx ≠ "")
    (hm : cache.lookup tx = none)
    (hr : rpc tx = .ok (some r)) (hst : r.status = "success") :
    (r.toAddr.map toLowerStr ≠ some (toLowerStr cfg.assetAddress) →
       verifyPayment cfg (.ok d) rpc now cache
         = ({ isValid := false, reason := some "Invalid transfer details" },
            cache)) ∧
    (r.toAddr.map toLowerStr = some (toLowerStr cfg.assetAddress) →
       verifyPayment cfg (.ok d) rpc now cache
         = ({ isValid := true, txHash := some tx },
            (tx, { timestamp := now, amount := p.amount
                 , fromAddr := p.fromAddr }) :: cache)) := by
  constructor <;> intro hdest <;>
    simp [verifyPayment, hv, hs, hn, hp, ht, hne, hm, hr, hst, hdest]

/-- Witness for C3: a concrete uncached proof with a successful receipt
whose destination matches the configured asset address up to case. -/
theorem C3_destination_check_witness :
    verifyPayment X402_CONFIG
        (.ok { x402Version := some 1, scheme := some "exact"
             , network := some "sei-testnet"
             , payload := some { txHash := some "0xabc", amount := some "1000"
                               , fromAddr := some "0xme" } })
        (fun _ => .ok (some { status := "success"
                            , toAddr := some "0x4fcf1784b31630811181f670aea7a7bef803eaed" }))
        7 []
      = ({ isValid := true, txHash := some "0xabc" },
         [("0xabc", { timestamp := 7, amount := some "1000"
                    , fromAddr := some "0xme" })]) :=
  (C3_destination_check X402_CONFIG _ _ "0xabc"
      { status := "success", toAddr := some "0x4fcf1784b31630811181f670aea7a7bef803eaed" }
      _ 7 []
      rfl rfl rfl rfl rfl (by decide) rfl rfl rfl).2 (by decide)

/-- Counterexample to C3 as stated: a successful receipt whose destination
does not match produces reason `"Invalid transfer details"` (route.ts
line 119), not the claimed `"invalid transfer details"`. -/
theorem C3_counterexample :
    ((verifyPayment X402_CONFIG
        (.ok { x402Version := some 1, scheme := some "exact"
             , network := some "sei-testnet"
             , payload := some { txHash := some "0xabc", amount := some "1000"
                               , fromAddr := some "0xme" } })
        (fun _ => .ok (some { status := "success", toAddr := some "0xother" }))
        7 []).1.reason ≠ some "invalid transfer details") ∧
    ((verifyPayment X402_CONFIG
        (.ok { x402Version := some 1, scheme := some "exact"
             , network := some "sei-testnet"
             , payload := some { txHash := some "0xabc", amount := some "1000"
                               , fromAddr := some "0xme" } })
        (fun _ => .ok (some { status := "success", toAddr := some "0xother" }))
        7 []).1.reason = some "Invalid transfer details") := by
  refine ⟨by decide, by decide⟩

/-- Claim C9 (confirmed): the verification verdict is independent of
`payload.amount` and `payload.fromAddr`: two well-formed, uncached proofs
sharing transaction id, version, scheme and network receive the same
`isValid` verdict whatever amounts or payers they claim — the code never
inspects either field before deciding. -/
theorem C9_verdict_independent_of_amount_payer (cfg : X402Config)
    (d₁ d₂ : PaymentData) (p₁ p₂ : PaymentPayload) (tx : String)
    (rpc : String → RpcOutcome) (now : Nat) (cache : Cache)
    (hv₁ : d₁.x402Version = some 1) (hs₁ : d₁.scheme = some "exact")
    (hn₁ : d₁.network = some cfg.network)
    (hv₂ : d₂.x402Version = some 1) (hs₂ : d₂.scheme = some "exact")
    (hn₂ : d₂.network = some cfg.network)
    (hp₁ : d₁.payload = some p₁) (hp₂ : d₂.payload = some p₂)
    (ht₁ : p₁.txHash = some tx) (ht₂ : p₂.txHash = some tx)
    (hne : tx ≠ "") (hm : cache.lookup tx = none) :
    (verifyPayment cfg (.ok d₁) rpc now cache).1.isValid
      = (verifyPayment cfg (.ok d₂) rpc now cache).1.isValid := by
  simp only [verifyPayment, hv₁, hs₁, hn₁, hv₂, hs₂, hn₂, hp₁, hp₂, ht₁, ht₂]
  cases hrt : rpc tx with
  | fault m => simp [hne, hm, hrt]
  | ok o =>
      cases o with
      | none => simp [hne, hm, hrt]
      | some r =>
          simp only [hne, hm, hrt]
          simp only [ne_eq, not_true_eq_false, not_false_eq_true, or_self,
            if_false, ite_false, Option.isSome_none, Bool.false_eq_true]
          split
          · rfl
          · split <;> rfl

/-- Witness for C9: two concrete proofs differing only in the claimed
amount and payer receive the same verdict. -/
theorem C9_verdict_independent_witness :
    (verifyPayment X402_CONFIG
        (.ok { x402Version := some 1, scheme := some "exact"
             , network := some "sei-testnet"
             , payload := some { txHash := some "0xabc", amount := some "1000"
                               , fromAddr := some "0xme" } })
        (fun _ => .ok (some { status := "success"
                            , toAddr := some "0x4fcf1784b31630811181f670aea7a7bef803eaed" }))
        7 []).1.isValid
      = (verifyPayment X402_CONFIG
          (.ok { x402Version := some 1, scheme := some "exact"
               , network := some "sei-testnet"
               , payload := some { txHash := some "0xabc", amount := some "1"
                                 , fromAddr := some "0xsomeoneelse" } })
          (fun _ => .ok (some { status := "success"
                              , toAddr := some "0x4fcf1784b31630811181f670aea7a7bef803eaed" }))
          7 []).1.isValid :=
  C9_verdict_independent_of_amount_payer X402_CONFIG _ _ _ _ "0xabc" _ 7 []
    rfl rfl rfl rfl rfl rfl rfl rfl rfl rfl (by decide) rfl

/-- Claim C10 (confirmed): every `verifyPayment` call returning
`isValid = false` leaves the verified-payment cache exactly as it was, and
whenever the cache changes the call was a fresh successful verification
(`isValid = true` and not served from the cache). -/
theorem C10_cache_unchanged_on_failure (cfg : X402Config)
    (decode : DecodeOutcome) (rpc : String → RpcOutcome) (now : Nat)
    (cache : Cache) :
    ((verifyPayment cfg decode rpc now cache).1.isValid = false →
       (verifyPayment cfg decode rpc now cache).2 = cache) ∧
    ((verifyPayment cfg decode rpc now cache).2 ≠ cache →
       (verifyPayment cfg decode rpc now cache).1.isValid = true ∧
       (verifyPayment cfg decode rpc now cache).1.cached = none) := by
  unfold verifyPayment
  rcases decode with d | m
  · repeat' split
    all_goals simp
  · simp

/-- Witness for C10: a concrete failing call (version mismatch) leaves the
initial one-entry cache untouched. -/
theorem C10_cache_unchanged_witness :
    (verifyPayment X402_CONFIG
        (.ok { x402Version := some 99, scheme := some "exact"
             , network := some "sei-testnet"
             , payload := some { txHash := some "0xdef", amount := none
                               , fromAddr := none } })
        (fun _ => .ok none) 7
        [("0xabc", { timestamp := 1, amount := none, fromAddr := none })]).2
      = [("0xabc", { timestamp := 1, amount := none, fromAddr := none })] :=
  (C10_cache_unchanged_on_failure X402_CONFIG _ _ 7 _).1 (by decide)

/-- A reason built by string concatenation of the `catch` handler is never
the empty string, so `reason || "Payment verification failed"` keeps it. -/
lemma verification_error_ne_empty (m : String) :
    ("Verification error: " ++ m) ≠ "" := by
  intro h
  have hd : ("Verification error: " : String).data ++ m.data = [] := by
    rw [← String.data_append, h]
  exact absurd (List.append_eq_nil.mp hd).1 (by decide)

/-- Claim C5 (amended): the Verifier never throws — the `catch` in
`verifyPayment` turns every internal fault into a structured result — and
when the ledger RPC capability itself errors with message `m` on a
well-formed, uncached proof, the resource gate responds 402 with a
re-issued challenge; but, contrary to the claim as stated, the challenge's
`error` field is `"Verification error: " ++ m`, which INCLUDES the
underlying exception message rather than hiding it (route.ts lines
125–128 and 146–148). -/
theorem C5_fault_contained (cfg : X402Config) (decode : String → DecodeOutcome)
    (rpc : String → RpcOutcome) (now : Nat) (rand : String) (h : String)
    (cache : Cache) (d : PaymentData) (p : PaymentPayload) (tx m : String)
    (hh : h ≠ "") (hd : decode h = .ok d)
    (hv : d.x402Version = some 1) (hs : d.scheme = some "exact")
    (hn : d.network = some cfg.network) (hp : d.payload = some p)
    (ht : p.txHash = some tx) (hne : tx ≠ "")
    (hm : cache.lookup tx = none) (hf : rpc tx = .fault m) :
    GET cfg decode rpc now rand (some h) cache
      = ({ status := 402
         , body := .challenge { generatePaymentChallenge cfg now rand with
             error := some ("Verification error: " ++ m) } }, cache) := by
  simp [GET, hh, hd, verifyPayment, hv, hs, hn, hp, ht, hne, hm, hf,
    reasonOrDefault, verification_error_ne_empty m]

/-- Witness for C5: a concrete faulting ledger oracle. -/
theorem C5_fault_contained_witness :
    GET X402_CONFIG
        (fun _ => .ok { x402Version := some 1, scheme := some "exact"
                      , network := some "sei-testnet"
                      , payload := some { txHash := some "0xabc"
                                        , amount := some "1000"
                                        , fromAddr := some "0xme" } })
        (fun _ => .fault "boom") 7 "w" (some "hdr") []
      = ({ status := 402
         , body := .challenge { generatePaymentChallenge X402_CONFIG 7 "w" with
             error := some ("Verification error: " ++ "boom") } }, []) :=
  C5_fault_contained X402_CONFIG _ _ 7 "w" "hdr" [] _ _ "0xabc" "boom"
    (by decide) rfl rfl rfl rfl rfl rfl (by decide) rfl rfl

/-- Counterexample to C5 as stated: when the RPC capability faults with
message `"boom"`, the re-issued challenge's `error` field is
`"Verification error: " ++ "boom"` — the internal exception message is
leaked to the client verbatim, not replaced by a generic message. -/
theorem C5_counterexample :
    (GET X402_CONFIG
        (fun _ => .ok { x402Version := some 1, scheme := some "exact"
                      , network := some "sei-testnet"
                      , payload := some { txHash := some "0xabc"
                                        , amount := some "1000"
                                        , fromAddr := some "0xme" } })
        (fun _ => .fault "boom") 7 "r" (some "hdr") []).1.body
      = .challenge { generatePaymentChallenge X402_CONFIG 7 "r" with
          error := some ("Verification error: " ++ "boom") } := by
  rfl

/-- `Nat.digitChar` of a decimal digit is never a dash. -/
lemma digitChar_ne_dash {m : Nat} (h : m < 10) : Nat.digitChar m ≠ '-' := by
  interval_cases m <;> decide

/-- All characters produced by `Nat.toDigitsCore` in base 10 on top of a
dash-free accumulator are dash-free. -/
lemma toDigitsCore_ne_dash :
    ∀ (f n : Nat) (ds : List Char), (∀ c ∈ ds, c ≠ '-') →
      ∀ c ∈ Nat.toDigitsCore 10 f n ds, c ≠ '-' := by
  intro f
  induction f with
  | zero =>
      intro n ds hds c hc
      exact hds c hc
  | succ f ih =>
      intro n ds hds c hc
      have hdig : Nat.digitChar (n % 10) ≠ '-' :=
        digitChar_ne_dash (Nat.mod_lt _ (by decide))
      simp only [Nat.toDigitsCore] at hc
      split at hc
      · rcases List.mem_cons.mp hc with hc | hc
        · exact hc ▸ hdig
        · exact hds c hc
      · refine ih (n / 10) (Nat.digitChar (n % 10) :: ds) ?_ c hc
        intro c' hc'
        rcases List.mem_cons.mp hc' with hc' | hc'
        · exact hc' ▸ hdig
        · exact hds c' hc'

/-- `Nat.toDigitsCore` only appends its accumulator to the digits. -/
lemma toDigitsCore_append (b : Nat) :
    ∀ (f n : Nat) (ds : List Char),
      Nat.toDigitsCore b f n ds = Nat.toDigitsCore b f n [] ++ ds := by
  intro f
  induction f with
  | zero => intro n ds; rfl
  | succ f ih =>
      intro n ds
      simp only [Nat.toDigitsCore]
      split
      · rfl
      · rw [ih (n / b) (Nat.digitChar (n % b) :: ds),
            ih (n / b) (Nat.digitChar (n % b) :: [])]
        simp

/-- Appending one digit multiplies the parsed value by ten. -/
lemma parseDigits_append (xs : List Char) (c : Char) :
    parseDigits (xs ++ [c]) = 10 * parseDigits xs + charVal c := by
  simp [parseDigits, List.foldl_append]

/-- `charVal` inverts `Nat.digitChar` on decimal digits. -/
lemma charVal_digitChar {m : Nat} (h : m < 10) :
    charVal (Nat.digitChar m) = m := by
  interval_cases m <;> decide

/-- Parsing the base-10 digit rendering of `n` returns `n`. -/
lemma parseDigits_toDigitsCore :
    ∀ (f n : Nat), n < f → parseDigits (Nat.toDigitsCore 10 f n []) = n := by
  intro f
  induction f with
  | zero => intro n h; exact absurd h (Nat.not_lt_zero n)
  | succ f ih =>
      intro n hn
      simp only [Nat.toDigitsCore]
      split
      · rename_i h0
        have h10 : n < 10 := by omega
        have hv : charVal (Nat.digitChar (n % 10)) = n % 10 :=
          charVal_digitChar (Nat.mod_lt _ (by decide))
        simp only [parseDigits, List.foldl_cons, List.foldl_nil, hv]
        omega
      · rename_i h0
        rw [toDigitsCore_append, parseDigits_append,
          ih (n / 10) (by omega),
          charVal_digitChar (Nat.mod_lt _ (by decide))]
        omega

/-- The decimal rendering of a natural number, as a character list. -/
lemma repr_data_eq (n : Nat) :
    (Nat.repr n).data = Nat.toDigitsCore 10 (n + 1) n [] := rfl

/-- The decimal rendering of a natural number contains no dash. -/
lemma repr_ne_dash (n : Nat) : '-' ∉ (Nat.repr n).data := by
  rw [repr_data_eq]
  intro hmem
  exact toDigitsCore_ne_dash (n + 1) n [] (by simp) '-' hmem rfl

/-- Round trip: parsing `Nat.repr n` recovers `n` (so `Nat.repr` is
injective). -/
lemma parseDigits_repr (n : Nat) : parseDigits (Nat.repr n).data = n := by
  rw [repr_data_eq]
  exact parseDigits_toDigitsCore (n + 1) n (Nat.lt_succ_self n)

/-- Splitting at the first dash is unambiguous when neither prefix
contains a dash. -/
lemma append_dash_inj :
    ∀ (a₁ a₂ b₁ b₂ : List Char), '-' ∉ a₁ → '-' ∉ a₂ →
      a₁ ++ '-' :: b₁ = a₂ ++ '-' :: b₂ → a₁ = a₂ ∧ b₁ = b₂ := by
  intro a₁
  induction a₁ with
  | nil =>
      intro a₂ b₁ b₂ h₁ h₂ heq
      cases a₂ with
      | nil =>
          simp only [List.nil_append, List.cons.injEq] at heq
          exact ⟨rfl, heq.2⟩
      | cons c t =>
          simp only [List.nil_append, List.cons_append, List.cons.injEq] at heq
          obtain ⟨hc, -⟩ := heq
          subst hc
          exact absurd (List.mem_cons_self _ _) h₂
  | cons c t ih =>
      intro a₂ b₁ b₂ h₁ h₂ heq
      cases a₂ with
      | nil =>
          simp only [List.cons_append, List.nil_append, List.cons.injEq] at heq
          obtain ⟨hc, -⟩ := heq
          subst hc
          exact absurd (List.mem_cons_self _ _) h₁
      | cons c' t' =>
          simp only [List.cons_append, List.cons.injEq] at heq
          obtain ⟨hc, ht⟩ := heq
          have h₁' : '-' ∉ t := fun hm => h₁ (List.mem_cons_of_mem _ hm)
          have h₂' : '-' ∉ t' := fun hm => h₂ (List.mem_cons_of_mem _ hm)
          obtain ⟨he, hb⟩ := ih t' b₁ b₂ h₁' h₂' ht
          exact ⟨by rw [hc, he], hb⟩

/-- `mkReference` is injective on draws whose random suffix contains no
dash (the JS suffix is base-36, so it never does). -/
lemma mkReference_inj {t₁ t₂ : Nat} {r₁ r₂ : String}
    (h₁ : '-' ∉ r₁.data) (h₂ : '-' ∉ r₂.data)
    (heq : mkReference t₁ r₁ = mkReference t₂ r₂) : t₁ = t₂ ∧ r₁ = r₂ := by
  have hd := congrArg String.data heq
  simp only [mkReference, String.data_append] at hd
  have hsei : ("sei-" : String).data = ['s', 'e', 'i', '-'] := rfl
  have hdash : ("-" : String).data = ['-'] := rfl
  simp only [hsei, hdash, List.append_assoc, List.cons_append,
    List.nil_append, List.cons.injEq] at hd
  obtain ⟨-, -, -, -, hd⟩ := hd
  obtain ⟨ha, hb⟩ := append_dash_inj _ _ _ _ (repr_ne_dash t₁) (repr_ne_dash t₂) hd
  refine ⟨?_, String.ext hb⟩
  have hp := congrArg parseDigits ha
  rwa [parseDigits_repr, parseDigits_repr] at hp

/-- Claim C8 (amended): the `extra.reference` values of two issued
challenges are distinct whenever their (millisecond timestamp, random
suffix) draws differ — the random suffix being base-36, it never contains
a dash, so the reference determines the draw. Contrary to the claim as
stated, distinctness is NOT guaranteed for arbitrary same-process calls:
two calls in the same millisecond whose `Math.random()` suffixes coincide
produce the same reference (see the counterexample). -/
theorem C8_references_distinct (cfg : X402Config) (t₁ t₂ : Nat)
    (r₁ r₂ : String) (h₁ : '-' ∉ r₁.data) (h₂ : '-' ∉ r₂.data)
    (hne : t₁ ≠ t₂ ∨ r₁ ≠ r₂) :
    ((generatePaymentChallenge cfg t₁ r₁).accepts.map fun o => o.extra.reference)
      ≠ ((generatePaymentChallenge cfg t₂ r₂).accepts.map fun o => o.extra.reference) := by
  intro h
  simp only [generatePaymentChallenge, List.map_cons, List.map_nil,
    List.cons.injEq, and_true] at h
  obtain ⟨ht, hr⟩ := mkReference_inj h₁ h₂ h
  rcases hne with hne | hne
  · exact hne ht
  · exact hne hr

/-- Witness for C8: two draws one millisecond apart with the same random
suffix give distinct references. -/
theorem C8_references_distinct_witness :
    ((generatePaymentChallenge X402_CONFIG 1 "ab").accepts.map fun o => o.extra.reference)
      ≠ ((generatePaymentChallenge X402_CONFIG 2 "ab").accepts.map fun o => o.extra.reference) :=
  C8_references_distinct X402_CONFIG 1 2 "ab" "ab" (by decide) (by decide)
    (Or.inl (by decide))

/-- Counterexample to C8 as stated: a process run in which two challenges
are issued in the same millisecond (`Date.now() = 5`) and `Math.random()`
happens to yield the same suffix `"k"` twice — possible, since the suffix
is finite and draws are independent — produces two equal
`extra.reference` values, so the N issued references are not pairwise
distinct. -/
theorem C8_counterexample :
    ¬ List.Pairwise (fun a b => a ≠ b)
        (((generatePaymentChallenge X402_CONFIG 5 "k").accepts.map fun o => o.extra.reference)
          ++ ((generatePaymentChallenge X402_CONFIG 5 "k").accepts.map fun o => o.extra.reference)) := by
  decide
